import Mathlib

/-!
Verification development for the DirectShow local video device source
(`XLocalVideoDevice.cpp` / `XLocalVideoDevice.hpp`).

The C++ code is shallowly embedded: the mutable `XLocalVideoDeviceData`
object becomes an explicit `DeviceState` record, member functions become
pure state-transforming functions, the Win32 events become booleans
(`signaled`), hardware COM interfaces (`IAMVideoProcAmp`) become oracles
given as function records, and out-pointer parameters become returned
`Option` values.  Machine integers are modelled as `Int`/`Nat` (no value
in the modelled paths can overflow: property ids are 0..9, pixel bytes
are 0..255, and the arithmetic on sizes is plain index arithmetic).
-/

namespace CVSandbox

/-- Modelled from the spec: the `XErrorCode` enumeration comes from a header
that is not part of the provided sources; §7 of the spec names the codes used
by this component, which are embedded as a plain enumeration (only
distinctness of the codes matters).  `ErrorDeivceNotReady` keeps the
source's spelling of the "device not ready" code. -/
inductive XErrorCode where
  | SuccessCode
  | ErrorFailed
  | ErrorInvalidConfiguration
  | ErrorDeivceNotReady
  | ErrorInvalidProperty
  | ErrorConfigurationNotSupported
  | ErrorUnsupportedProperty
  | ErrorNullParameter
  deriving DecidableEq

open XErrorCode

/-- Device capability value type (`XDeviceCapabilities`): width, height, bit
depth, average fps and min/max fps bounds.  The class itself lives in
`XDeviceCapabilities.hpp` (not under the provided sources); the spec states
it is an immutable value type whose equality compares all fields, which is
exactly the derived structure equality. -/
structure XDeviceCapabilities where
  width : Int
  height : Int
  bitCount : Int
  fps : Int
  minFps : Int
  maxFps : Int
  deriving DecidableEq

/-- Modelled from the spec: the default-constructed `XDeviceCapabilities()`
(used to reset the resolution request and as the not-a-video-format marker
whose width is 0) zeroes all fields. -/
def XDeviceCapabilities.empty : XDeviceCapabilities := ⟨0, 0, 0, 0, 0, 0⟩

/-- Video input pin value type (`XDevicePinInfo`): index plus connector
type.  The class lives outside the provided sources; the spec describes it
as {index, type-enum} with `Unknown = 0`. -/
structure XDevicePinInfo where
  index : Int
  pinType : Nat
  deriving DecidableEq

/-- Modelled from the spec: default-constructed `XDevicePinInfo()` is the
invalid pin (type `Unknown`). -/
def XDevicePinInfo.dflt : XDevicePinInfo := ⟨0, 0⟩

/-- The `XVideoProperty` enum class from `XLocalVideoDevice.hpp`
(`Brightness = 0` .. `Gain = 9`). -/
inductive XVideoProperty where
  | Brightness
  | Contrast
  | Hue
  | Saturation
  | Sharpness
  | Gamma
  | ColorEnable
  | WhiteBalance
  | BacklightCompensation
  | Gain
  deriving DecidableEq

/-- Underlying integer value of an `XVideoProperty` enumerator. -/
def XVideoProperty.val : XVideoProperty → Int
  | .Brightness => 0
  | .Contrast => 1
  | .Hue => 2
  | .Saturation => 3
  | .Sharpness => 4
  | .Gamma => 5
  | .ColorEnable => 6
  | .WhiteBalance => 7
  | .BacklightCompensation => 8
  | .Gain => 9

/-- DirectShow `VideoProcAmp_Flags_Auto` platform constant. -/
def VideoProcAmp_Flags_Auto : Int := 1

/-- DirectShow `VideoProcAmp_Flags_Manual` platform constant. -/
def VideoProcAmp_Flags_Manual : Int := 2

/-- Outcome of a hardware `IAMVideoProcAmp::Set` call, as the code
distinguishes it: success, `E_PROP_ID_UNSUPPORTED`, or any other failure. -/
inductive HwSetResult where
  | ok
  | propIdUnsupported
  | failed
  deriving DecidableEq

/-- Outcome of a hardware `IAMVideoProcAmp::Get` call: on success the
hardware reports a value and a flags word. -/
inductive HwGetResult where
  | ok (value : Int) (flags : Int)
  | propIdUnsupported
  | failed

/-- Oracle for the `IAMVideoProcAmp` COM interface: `set` receives the
native property, the value and the flags word, `get` receives the native
property.  The interface itself is an external DirectShow capability. -/
structure HwVideoProcAmp where
  set : XVideoProperty → Int → Int → HwSetResult
  get : XVideoProperty → HwGetResult

/-- Error notification delivered to the listener via `NotifyError`
(message text plus the `fatal` flag). -/
structure Notification where
  message : String
  fatal : Bool
  deriving DecidableEq

/-- State of `XLocalVideoDeviceData`: the fields of the C++ object, with
the manual-reset events replaced by their signaled flag, the background
`XThread` by its running flag, and the `IAMVideoProcAmp*` by an optional
oracle.  The camera-domain half (`CameraControl`, `CameraPropertiesToSet`)
is structurally identical to the video-domain half and is not modelled;
no claim mentions it.  The deferred video-property map (`std::map`) is an
association list with unique keys. -/
structure DeviceState where
  deviceMoniker : String
  resolution : XDeviceCapabilities
  requestedFps : Nat
  videoInput : XDevicePinInfo
  needToSetVideoInput : Bool
  capabilities : List XDeviceCapabilities
  videoPins : List XDevicePinInfo
  isCrossbarAvailable : Bool
  infoCollectedSignaled : Bool
  framesCounter : Nat
  threadRunning : Bool
  exitEventSignaled : Bool
  deviceIsRunning : Bool
  deviceIsRunningSignaled : Bool
  videoProcAmp : Option HwVideoProcAmp
  videoPropertiesToSet : List (XVideoProperty × Int × Bool)

/-- `std::map::operator[]` assignment on the deferred-property store:
replace the entry with the given key if present, otherwise add a new
entry. -/
def insertProp (l : List (XVideoProperty × Int × Bool)) (p : XVideoProperty)
    (v : Int) (a : Bool) : List (XVideoProperty × Int × Bool) :=
  match l with
  | [] => [(p, v, a)]
  | e :: rest => if e.1 = p then (p, v, a) :: rest else e :: insertProp rest p v a

/-- `std::map::find`-style lookup in the deferred-property store. -/
def lookupProp (l : List (XVideoProperty × Int × Bool)) (p : XVideoProperty) :
    Option (Int × Bool) :=
  match l with
  | [] => none
  | e :: rest => if e.1 = p then some e.2 else lookupProp rest p

/-- `XLocalVideoDeviceData::Start`: reject an empty moniker with
`ErrorInvalidConfiguration`; succeed as a no-op if the background thread is
already running; otherwise reset the frames counter and both events and
create the background thread (`threadCreateOk` is the outcome of
`XThread::Create`). -/
def Start (s : DeviceState) (threadCreateOk : Bool) : XErrorCode × DeviceState :=
  if s.deviceMoniker = "" then
    (ErrorInvalidConfiguration, s)
  else if s.threadRunning then
    (SuccessCode, s)
  else
    let s1 := { s with framesCounter := 0, exitEventSignaled := false,
                       infoCollectedSignaled := false }
    if threadCreateOk then (SuccessCode, { s1 with threadRunning := true })
    else (ErrorFailed, s1)

/-- `XLocalVideoDevice::SetDeviceMoniker`: refused while the background
thread is running; otherwise stores the moniker, clears the cached
capabilities, pins and crossbar flag, resets the discovery-completed event,
and resets the resolution/input/fps requests. -/
def SetDeviceMoniker (s : DeviceState) (moniker : String) : Bool × DeviceState :=
  if s.threadRunning then
    (false, s)
  else
    (true, { s with deviceMoniker := moniker,
                    capabilities := [],
                    videoPins := [],
                    isCrossbarAvailable := false,
                    infoCollectedSignaled := false,
                    resolution := XDeviceCapabilities.empty,
                    videoInput := XDevicePinInfo.dflt,
                    requestedFps := 0 })

/-- `XLocalVideoDevice::SetResolution`: refused while the background
thread is running; otherwise stores the resolution and requested fps. -/
def SetResolution (s : DeviceState) (resolution : XDeviceCapabilities)
    (requestedFps : Nat) : Bool × DeviceState :=
  if s.threadRunning then
    (false, s)
  else
    (true, { s with resolution := resolution, requestedFps := requestedFps })

/-- `XLocalVideoDeviceData::SetVideoProperty`: reject property values
outside `Brightness..Gain`; while the device is not streaming, store the
(value, automatic) pair in the deferred map and report success without any
hardware interaction; while streaming, require the `IAMVideoProcAmp`
handle and translate the hardware outcome
(`E_PROP_ID_UNSUPPORTED` to `ErrorUnsupportedProperty`, other failures to
`ErrorFailed`). -/
def SetVideoProperty (s : DeviceState) (property : XVideoProperty)
    (value : Int) (automatic : Bool) : XErrorCode × DeviceState :=
  if property.val < XVideoProperty.Brightness.val ∨
      XVideoProperty.Gain.val < property.val then
    (ErrorInvalidProperty, s)
  else if s.deviceIsRunning = false then
    (SuccessCode,
      { s with videoPropertiesToSet :=
          insertProp s.videoPropertiesToSet property value automatic })
  else
    match s.videoProcAmp with
    | none => (ErrorConfigurationNotSupported, s)
    | some amp =>
      match amp.set property value
          (if automatic then VideoProcAmp_Flags_Auto else VideoProcAmp_Flags_Manual) with
      | .ok => (SuccessCode, s)
      | .propIdUnsupported => (ErrorUnsupportedProperty, s)
      | .failed => (ErrorFailed, s)

/-- `XLocalVideoDeviceData::GetVideoProperty`.  The C++ function writes
through caller-supplied pointers; the embedding returns the written value
and the written automatic flag instead, so the defensive null-pointer
check (`ErrorNullParameter`) has no counterpart.  Order of the remaining
checks follows the source: property range, then `DeviceIsRunning`, then
presence of the `IAMVideoProcAmp` handle, then the hardware call. -/
def GetVideoProperty (s : DeviceState) (property : XVideoProperty) :
    XErrorCode × Option Int × Option Bool :=
  if property.val < XVideoProperty.Brightness.val ∨
      XVideoProperty.Gain.val < property.val then
    (ErrorInvalidProperty, none, none)
  else if s.deviceIsRunning = false then
    (ErrorDeivceNotReady, none, none)
  else
    match s.videoProcAmp with
    | none => (ErrorConfigurationNotSupported, none, none)
    | some amp =>
      match amp.get property with
      | .ok v flags => (SuccessCode, some v, some (flags = VideoProcAmp_Flags_Auto))
      | .propIdUnsupported => (ErrorUnsupportedProperty, none, none)
      | .failed => (ErrorFailed, none, none)

/-- Every `XVideoProperty` enumerator lies in the `Brightness..Gain`
range, so the defensive range check in the property functions never
fires. -/
lemma XVideoProperty.val_in_range (p : XVideoProperty) :
    ¬(p.val < XVideoProperty.Brightness.val ∨ XVideoProperty.Gain.val < p.val) := by
  cases p <;> simp [XVideoProperty.val]

/-- Looking up the key just inserted by `insertProp` returns the freshly
stored pair. -/
lemma lookupProp_insertProp (l : List (XVideoProperty × Int × Bool))
    (p : XVideoProperty) (v : Int) (a : Bool) :
    lookupProp (insertProp l p v a) p = some (v, a) := by
  induction l with
  | nil => simp [insertProp, lookupProp]
  | cons e rest ih =>
    by_cases h : e.1 = p
    · simp [insertProp, lookupProp, h]
    · simp [insertProp, lookupProp, h, ih]

/-- A concrete idle device state used by the witness theorems. -/
def baseState : DeviceState :=
  { deviceMoniker := "@device:pnp:demo"
    resolution := XDeviceCapabilities.empty
    requestedFps := 0
    videoInput := XDevicePinInfo.dflt
    needToSetVideoInput := false
    capabilities := [⟨640, 480, 24, 30, 5, 30⟩]
    videoPins := [⟨1, 2⟩]
    isCrossbarAvailable := true
    infoCollectedSignaled := true
    framesCounter := 42
    threadRunning := false
    exitEventSignaled := false
    deviceIsRunning := false
    deviceIsRunningSignaled := false
    videoProcAmp := none
    videoPropertiesToSet := [] }

/-- Claim C4: calling `Start` while the device moniker is empty returns
`ErrorInvalidConfiguration` and leaves the whole state unchanged — in
particular no background thread is created, the frame counter keeps its
value, and `IsRunning()` (the thread-running flag) stays false if it was
false. -/
theorem start_empty_moniker_rejected (s : DeviceState) (threadCreateOk : Bool)
    (h : s.deviceMoniker = "") :
    (Start s threadCreateOk).1 = ErrorInvalidConfiguration ∧
    (Start s threadCreateOk).2 = s := by
  simp [Start, h]

/-- Witness for claim C4 at a concrete state with an empty moniker. -/
theorem start_empty_moniker_rejected_witness :
    (Start { baseState with deviceMoniker := "" } true).1 = ErrorInvalidConfiguration ∧
    (Start { baseState with deviceMoniker := "" } true).2 =
      { baseState with deviceMoniker := "" } :=
  start_empty_moniker_rejected { baseState with deviceMoniker := "" } true rfl

/-- Claim C10: calling `Start` while the background thread is already
running (which in the real object implies a non-empty moniker, since the
thread is only ever created after the empty-moniker check and the moniker
cannot change while the thread runs) returns `SuccessCode` and leaves the
state unchanged: no second thread, no frame-counter reset, no event
reset. -/
theorem start_while_running_idempotent (s : DeviceState) (threadCreateOk : Bool)
    (hm : s.deviceMoniker ≠ "") (hr : s.threadRunning = true) :
    (Start s threadCreateOk).1 = SuccessCode ∧
    (Start s threadCreateOk).2 = s := by
  simp [Start, hm, hr]

/-- Witness for claim C10 at a concrete running state. -/
theorem start_while_running_idempotent_witness :
    (Start { baseState with threadRunning := true } false).1 = SuccessCode ∧
    (Start { baseState with threadRunning := true } false).2 =
      { baseState with threadRunning := true } :=
  start_while_running_idempotent { baseState with threadRunning := true } false
    (by simp [baseState]) rfl

/-- Claim C7: `SetDeviceMoniker` and `SetResolution` both return false and
leave the state untouched while the background thread runs, and return true
having stored the new moniker (resp. the new resolution and requested fps)
while idle. -/
theorem config_mutation_gated_on_idle (s : DeviceState) (m : String)
    (res : XDeviceCapabilities) (fps : Nat) :
    (s.threadRunning = true →
      SetDeviceMoniker s m = (false, s) ∧ SetResolution s res fps = (false, s)) ∧
    (s.threadRunning = false →
      (SetDeviceMoniker s m).1 = true ∧
      (SetDeviceMoniker s m).2.deviceMoniker = m ∧
      SetResolution s res fps =
        (true, { s with resolution := res, requestedFps := fps })) := by
  constructor
  · intro h
    simp [SetDeviceMoniker, SetResolution, h]
  · intro h
    simp [SetDeviceMoniker, SetResolution, h]

/-- Witness for claim C7: both branches exercised on concrete states. -/
theorem config_mutation_gated_on_idle_witness :
    (SetDeviceMoniker { baseState with threadRunning := true } "x" =
      (false, { baseState with threadRunning := true })) ∧
    (SetDeviceMoniker baseState "x").1 = true ∧
    SetResolution baseState ⟨320, 240, 24, 15, 5, 15⟩ 15 =
      (true, { baseState with resolution := ⟨320, 240, 24, 15, 5, 15⟩,
                              requestedFps := 15 }) :=
  ⟨((config_mutation_gated_on_idle { baseState with threadRunning := true }
      "x" ⟨320, 240, 24, 15, 5, 15⟩ 15).1 rfl).1,
   ((config_mutation_gated_on_idle baseState "x" ⟨320, 240, 24, 15, 5, 15⟩ 15).2 rfl).1,
   ((config_mutation_gated_on_idle baseState "x" ⟨320, 240, 24, 15, 5, 15⟩ 15).2 rfl).2.2⟩

/-- Claim C9: every successful `SetDeviceMoniker` (i.e. one performed while
the thread is idle) clears the cached `Capabilities` and `VideoPins` lists,
resets `IsCrossbarAvailable`, and resets the discovery-completed event, so
cached discovery results never survive an identity change. -/
theorem moniker_change_clears_discovery_cache (s : DeviceState) (m : String)
    (h : s.threadRunning = false) :
    (SetDeviceMoniker s m).1 = true ∧
    (SetDeviceMoniker s m).2.capabilities = [] ∧
    (SetDeviceMoniker s m).2.videoPins = [] ∧
    (SetDeviceMoniker s m).2.isCrossbarAvailable = false ∧
    (SetDeviceMoniker s m).2.infoCollectedSignaled = false := by
  simp [SetDeviceMoniker, h]

/-- Witness for claim C9 at a concrete idle state with a populated cache. -/
theorem moniker_change_clears_discovery_cache_witness :
    (SetDeviceMoniker baseState "other").1 = true ∧
    (SetDeviceMoniker baseState "other").2.capabilities = [] ∧
    (SetDeviceMoniker baseState "other").2.videoPins = [] ∧
    (SetDeviceMoniker baseState "other").2.isCrossbarAvailable = false ∧
    (SetDeviceMoniker baseState "other").2.infoCollectedSignaled = false :=
  moniker_change_clears_discovery_cache baseState "other" rfl

/-- Claim C5: for every property id, `GetVideoProperty` on a device that is
not streaming (`DeviceIsRunning` false) returns the device-not-ready code
(spelled `ErrorDeivceNotReady` in the source), regardless of which of the
ten property ids is passed, and reports no value. -/
theorem get_video_property_not_ready (s : DeviceState) (p : XVideoProperty)
    (h : s.deviceIsRunning = false) :
    GetVideoProperty s p = (ErrorDeivceNotReady, none, none) := by
  have hp := XVideoProperty.val_in_range p
  simp [GetVideoProperty, hp, h]

/-- Witness for claim C5 at a concrete idle state and a concrete property. -/
theorem get_video_property_not_ready_witness :
    GetVideoProperty baseState XVideoProperty.WhiteBalance =
      (ErrorDeivceNotReady, none, none) :=
  get_video_property_not_ready baseState XVideoProperty.WhiteBalance rfl

/-- Claim C6: `SetVideoProperty` while the device is not streaming returns
success, changes nothing except inserting/overwriting the deferred map
entry for that property (in particular the hardware oracle field is
untouched and never consulted), and the stored (value, automatic) pair is
retrievable from the deferred map. -/
theorem set_video_property_deferred (s : DeviceState) (p : XVideoProperty)
    (v : Int) (a : Bool) (h : s.deviceIsRunning = false) :
    (SetVideoProperty s p v a).1 = SuccessCode ∧
    (SetVideoProperty s p v a).2 =
      { s with videoPropertiesToSet := insertProp s.videoPropertiesToSet p v a } ∧
    lookupProp (SetVideoProperty s p v a).2.videoPropertiesToSet p = some (v, a) := by
  have hp := XVideoProperty.val_in_range p
  refine ⟨?_, ?_, ?_⟩ <;>
    simp [SetVideoProperty, hp, h, lookupProp_insertProp]

/-- Witness for claim C6: deferring a property on a concrete idle state. -/
theorem set_video_property_deferred_witness :
    (SetVideoProperty baseState XVideoProperty.Hue 7 true).1 = SuccessCode ∧
    lookupProp (SetVideoProperty baseState XVideoProperty.Hue 7 true).2.videoPropertiesToSet
      XVideoProperty.Hue = some (7, true) :=
  ⟨(set_video_property_deferred baseState XVideoProperty.Hue 7 true rfl).1,
   (set_video_property_deferred baseState XVideoProperty.Hue 7 true rfl).2.2⟩

/-- The streaming-entry block of `XLocalVideoDeviceData::RunVideo` (the
region holding `RunningSync` right after `IMediaControl::Run` succeeds):
mark the device running, signal the running event, store the outcome of
`QueryInterface(IID_IAMVideoProcAmp)` (`ampAcquired`), and — only when the
interface was obtained — replay every deferred video property through
`SetVideoProperty`, AND-ing each call's success into `configOK`, clear the
deferred map, and emit the non-fatal "Failed applying video configuration"
notification when `configOK` ended up false.  Returns the new state and
the notifications raised.  The camera-domain block that follows in the
source is symmetric and not modelled. -/
def RunVideoStreamingEntry (s : DeviceState) (ampAcquired : Option HwVideoProcAmp) :
    DeviceState × List Notification :=
  let s1 := { s with deviceIsRunning := true, deviceIsRunningSignaled := true,
                     videoProcAmp := ampAcquired }
  match ampAcquired with
  | none => (s1, [])
  | some _ =>
    let res := s1.videoPropertiesToSet.foldl
      (fun (acc : DeviceState × Bool) e =>
        let r := SetVideoProperty acc.1 e.1 e.2.1 e.2.2
        (r.2, acc.2 && decide (r.1 = SuccessCode)))
      (s1, true)
    let s2 := { res.1 with videoPropertiesToSet := [] }
    (s2, if res.2 then []
         else [{ message := "Failed applying video configuration", fatal := false }])

/-- While the device is streaming with a video-property handle present,
`SetVideoProperty` never changes the state (it only talks to hardware),
and its success is exactly the hardware `Set` call succeeding. -/
lemma setVideoProperty_running (s : DeviceState) (amp : HwVideoProcAmp)
    (p : XVideoProperty) (v : Int) (a : Bool)
    (hr : s.deviceIsRunning = true) (ha : s.videoProcAmp = some amp) :
    (SetVideoProperty s p v a).2 = s ∧
    (decide ((SetVideoProperty s p v a).1 = SuccessCode) =
      decide (amp.set p v
        (if a then VideoProcAmp_Flags_Auto else VideoProcAmp_Flags_Manual) = .ok)) := by
  have hp := XVideoProperty.val_in_range p
  cases hset : amp.set p v
      (if a then VideoProcAmp_Flags_Auto else VideoProcAmp_Flags_Manual) <;>
    simp [SetVideoProperty, hp, hr, ha, hset]

/-- The deferred-property replay fold leaves the state fixed and computes
the conjunction of the per-entry hardware successes. -/
lemma drain_fold (s : DeviceState) (amp : HwVideoProcAmp)
    (hr : s.deviceIsRunning = true) (ha : s.videoProcAmp = some amp) :
    ∀ (l : List (XVideoProperty × Int × Bool)) (b : Bool),
      l.foldl
        (fun (acc : DeviceState × Bool) e =>
          ((SetVideoProperty acc.1 e.1 e.2.1 e.2.2).2,
           acc.2 && decide ((SetVideoProperty acc.1 e.1 e.2.1 e.2.2).1 = SuccessCode)))
        (s, b) =
      (s, b && l.all (fun e =>
        decide (amp.set e.1 e.2.1
          (if e.2.2 then VideoProcAmp_Flags_Auto else VideoProcAmp_Flags_Manual) = .ok))) := by
  intro l
  induction l with
  | nil => intro b; simp
  | cons e rest ih =>
    intro b
    have h := setVideoProperty_running s amp e.1 e.2.1 e.2.2 hr ha
    simp only [List.foldl_cons, h.1, h.2, List.all_cons, ih, Bool.and_assoc]

/-- Counterexample to claim C3 as stated: when the device does not offer
the `IAMVideoProcAmp` interface at the streaming transition, the deferred
video-property map is neither applied nor cleared — here a state carrying
one deferred entry reaches streaming with the entry still pending and no
notification raised. -/
theorem deferred_props_not_drained_without_amp :
    (RunVideoStreamingEntry
        { baseState with videoPropertiesToSet := [(XVideoProperty.Brightness, 5, false)] }
        none).1.videoPropertiesToSet = [(XVideoProperty.Brightness, 5, false)] ∧
    (RunVideoStreamingEntry
        { baseState with videoPropertiesToSet := [(XVideoProperty.Brightness, 5, false)] }
        none).1.deviceIsRunning = true ∧
    (RunVideoStreamingEntry
        { baseState with videoPropertiesToSet := [(XVideoProperty.Brightness, 5, false)] }
        none).2 = [] := by
  refine ⟨rfl, rfl, rfl⟩

/-- Claim C3 (amended): at the transition into the streaming sub-state,
provided the hardware video-property control interface is acquired, every
entry of the deferred video-property map is applied to hardware, each
application's success is ANDed into a single aggregate flag, the map is
cleared regardless of per-entry failure, and an aggregate failure raises
exactly one non-fatal error notification while startup proceeds (the
device stays marked running); when the interface is not offered, the map
is left untouched. -/
theorem streaming_entry_drains_deferred_props (s : DeviceState) (amp : HwVideoProcAmp) :
    (RunVideoStreamingEntry s (some amp)).1.videoPropertiesToSet = [] ∧
    (RunVideoStreamingEntry s (some amp)).1.deviceIsRunning = true ∧
    (RunVideoStreamingEntry s (some amp)).1.deviceIsRunningSignaled = true ∧
    (RunVideoStreamingEntry s (some amp)).2 =
      (if s.videoPropertiesToSet.all (fun e =>
            decide (amp.set e.1 e.2.1
              (if e.2.2 then VideoProcAmp_Flags_Auto else VideoProcAmp_Flags_Manual) = .ok))
       then []
       else [{ message := "Failed applying video configuration", fatal := false }]) := by
  have hfold := drain_fold
    { s with deviceIsRunning := true, deviceIsRunningSignaled := true,
             videoProcAmp := some amp } amp rfl rfl
    s.videoPropertiesToSet true
  refine ⟨?_, ?_, ?_, ?_⟩
  · simp [RunVideoStreamingEntry, hfold]
  · simp [RunVideoStreamingEntry, hfold]
  · simp [RunVideoStreamingEntry, hfold]
  · simp only [RunVideoStreamingEntry]
    rw [hfold]
    rw [Bool.true_and]

/-- One result of `IAMStreamConfig::GetStreamCaps` as the enumeration loop
inspects it: the format-type tag and, for the video-info layouts, the
bitmap header fields and frame intervals (in 100ns units). -/
structure MediaTypeInfo where
  isVideoInfo : Bool
  width : Int
  height : Int
  bitCount : Int
  avgTimePerFrame : Int
  minFrameInterval : Int
  maxFrameInterval : Int
  deriving DecidableEq

/-- Capability record built from one media type, as in the body of the
enumeration loop of `GetPinCapabilitiesAndConfigureIt`: for a
`FORMAT_VideoInfo`/`FORMAT_VideoInfo2` entry (the two branches build the
same record from the same header fields), width/height/bit count are taken
from the bitmap header and the three rates are `10000000 / interval`; any
other format type leaves the default-constructed (all-zero) record. -/
def xcapOf (mt : MediaTypeInfo) : XDeviceCapabilities :=
  if mt.isVideoInfo then
    ⟨mt.width, mt.height, mt.bitCount,
      10000000 / mt.avgTimePerFrame,
      10000000 / mt.minFrameInterval,
      10000000 / mt.maxFrameInterval⟩
  else
    XDeviceCapabilities.empty

/-- The `std::find`-based membership test used for de-duplication
(`XDeviceCapabilities` equality compares all fields). -/
def containsCap (l : List XDeviceCapabilities) (c : XDeviceCapabilities) : Bool :=
  l.any (fun d => d = c)

/-- The capability-collection loop of `GetPinCapabilitiesAndConfigureIt`,
with the accumulated `capabilites` vector made explicit: each media type
is converted to a capability record; records with zero width (non-video
formats) or bit count of at most 12 are skipped; a record equal to one
already collected is not added again.  The loop's other effect — keeping
the first exact/closest media type for `SetFormat` — does not influence
the returned list and is not modelled. -/
def GetPinCapabilitiesAndConfigureIt :
    List MediaTypeInfo → List XDeviceCapabilities → List XDeviceCapabilities
  | [], acc => acc
  | mt :: rest, acc =>
    if (xcapOf mt).width ≠ 0 ∧ 12 < (xcapOf mt).bitCount then
      if containsCap acc (xcapOf mt) then
        GetPinCapabilitiesAndConfigureIt rest acc
      else
        GetPinCapabilitiesAndConfigureIt rest (acc ++ [xcapOf mt])
    else
      GetPinCapabilitiesAndConfigureIt rest acc

/-- `containsCap` decides list membership. -/
lemma containsCap_iff_mem (l : List XDeviceCapabilities) (c : XDeviceCapabilities) :
    containsCap l c = true ↔ c ∈ l := by
  simp [containsCap, List.any_eq_true]

/-- Loop invariant of the capability collection: if every accumulated
record has bit count above 12 and the accumulator has no duplicates, both
properties hold for the final list. -/
lemma getPinCaps_invariant :
    ∀ (mts : List MediaTypeInfo) (acc : List XDeviceCapabilities),
      (∀ c ∈ acc, 12 < c.bitCount) → acc.Nodup →
      (∀ c ∈ GetPinCapabilitiesAndConfigureIt mts acc, 12 < c.bitCount) ∧
      (GetPinCapabilitiesAndConfigureIt mts acc).Nodup := by
  intro mts
  induction mts with
  | nil =>
    intro acc hbig hnd
    exact ⟨hbig, hnd⟩
  | cons mt rest ih =>
    intro acc hbig hnd
    by_cases huse : (xcapOf mt).width ≠ 0 ∧ 12 < (xcapOf mt).bitCount
    · by_cases hmem : containsCap acc (xcapOf mt)
      · simpa [GetPinCapabilitiesAndConfigureIt, huse, hmem] using ih acc hbig hnd
      · have hnotmem : xcapOf mt ∉ acc := by
          intro hc
          exact hmem ((containsCap_iff_mem acc (xcapOf mt)).2 hc)
        have hbig2 : ∀ c ∈ acc ++ [xcapOf mt], 12 < c.bitCount := by
          intro c hc
          rcases List.mem_append.1 hc with h | h
          · exact hbig c h
          · rcases List.mem_singleton.1 h with rfl
            exact huse.2
        have hnd2 : (acc ++ [xcapOf mt]).Nodup := by
          rw [List.nodup_append]
          refine ⟨hnd, List.nodup_singleton _, ?_⟩
          intro c hc hc1
          rcases List.mem_singleton.1 hc1 with rfl
          exact hnotmem hc
        simpa [GetPinCapabilitiesAndConfigureIt, huse, hmem] using
          ih (acc ++ [xcapOf mt]) hbig2 hnd2
    · simpa [GetPinCapabilitiesAndConfigureIt, huse] using ih acc hbig hnd

/-- A 12-bpp media type at 640x480 (excluded by the bit-depth filter). -/
def mt12bpp : MediaTypeInfo := ⟨true, 640, 480, 12, 333333, 333333, 2000000⟩

/-- A 24-bpp media type at the same 640x480 resolution. -/
def mt24bpp : MediaTypeInfo := ⟨true, 640, 480, 24, 333333, 333333, 2000000⟩

/-- Claim C8: format enumeration keeps no capability with bit depth 12 or
less, the surviving list has no duplicate capability records, and the
concrete scenario of a format list holding a 12-bpp and a 24-bpp entry for
the same resolution yields only the 24-bpp capability. -/
theorem capability_filter_and_dedup (mts : List MediaTypeInfo) :
    (∀ c ∈ GetPinCapabilitiesAndConfigureIt mts [], 12 < c.bitCount) ∧
    (GetPinCapabilitiesAndConfigureIt mts []).Nodup ∧
    GetPinCapabilitiesAndConfigureIt [mt12bpp, mt24bpp] [] = [xcapOf mt24bpp] := by
  have h := getPinCaps_invariant mts [] (by intro c hc; cases hc) List.nodup_nil
  exact ⟨h.1, h.2, by decide⟩

/-- Witness for claim C8: the surviving capability of the two-entry
scenario passes the bit-depth bound, and the scenario list is
duplicate-free. -/
theorem capability_filter_and_dedup_witness :
    (∀ c ∈ GetPinCapabilitiesAndConfigureIt [mt12bpp, mt24bpp] [], 12 < c.bitCount) ∧
    (GetPinCapabilitiesAndConfigureIt [mt12bpp, mt24bpp] []).Nodup :=
  ⟨(capability_filter_and_dedup [mt12bpp, mt24bpp]).1,
   (capability_filter_and_dedup [mt12bpp, mt24bpp]).2.1⟩

/-- Modelled from the spec: `RedIndex` comes from the `ximage.h` channel
index constants, which are outside the provided sources; the spec's frame
converter contract (top-down RGB24 output with R and B swapped relative to
the BGR source) puts red at byte 0 of an output pixel. -/
def RedIndex : Nat := 0

/-- Modelled from the spec: `GreenIndex` (see `RedIndex`) — green stays at
byte 1 of an output pixel. -/
def GreenIndex : Nat := 1

/-- Modelled from the spec: `BlueIndex` (see `RedIndex`) — blue lands at
byte 2 of an output pixel. -/
def BlueIndex : Nat := 2

/-- The three byte stores of the scalar per-pixel loop body of
`SampleGrabber::BufferCB` (`dstRow[BlueIndex] = srcRow[0]`;
`dstRow[GreenIndex] = srcRow[1]`; `dstRow[RedIndex] = srcRow[2]`),
rendered as the 3-byte output pixel they produce.  `src` is the source
pixel's byte fetch. -/
def scalarPixel (src : Nat → Nat) : List Nat :=
  (((List.replicate 3 0).set BlueIndex (src 0)).set GreenIndex (src 1)).set
    RedIndex (src 2)

/-- One destination row as written by the scalar conversion path: the
per-pixel loop over `x < width`, pixel `x` reading source bytes
`3 * x .. 3 * x + 2`. -/
def scalarRow (src : Nat → Nat) (width : Nat) : List Nat :=
  (List.range width).flatMap (fun x => scalarPixel (fun i => src (3 * x + i)))

/-- `_mm_shuffle_epi8` on a 16-byte chunk: each mask byte selects a source
byte, a negative mask byte produces 0.  Masks are listed low byte first
(the reverse of the `_mm_set_epi8` argument order in the source). -/
def pshufb (chunk : Nat → Nat) (mask : List Int) : List Nat :=
  mask.map (fun m => if m < 0 then 0 else chunk m.toNat)

/-- `swapIndeces_0` of the SSSE3 path, low byte first (source lists
`_mm_set_epi8(-1, 12, 13, 14, 9, 10, 11, 6, 7, 8, 3, 4, 5, 0, 1, 2)`,
i.e. high byte first). -/
def swapIndeces_0 : List Int := [2, 1, 0, 5, 4, 3, 8, 7, 6, 11, 10, 9, 14, 13, 12, -1]

/-- `swapIndeces_1`, low byte first (source:
`_mm_set_epi8(15, -1, 11, 12, 13, 8, 9, 10, 5, 6, 7, 2, 3, 4, -1, 0)`). -/
def swapIndeces_1 : List Int := [0, -1, 4, 3, 2, 7, 6, 5, 10, 9, 8, 13, 12, 11, -1, 15]

/-- `swapIndeces_2`, low byte first (source:
`_mm_set_epi8(13, 14, 15, 10, 11, 12, 7, 8, 9, 4, 5, 6, 1, 2, 3, -1)`). -/
def swapIndeces_2 : List Int := [-1, 3, 2, 1, 6, 5, 4, 9, 8, 7, 12, 11, 10, 15, 14, 13]

/-- `chunk0IndecesFrom1`, low byte first (source:
`_mm_set_epi8(1, -1, ..., -1)`: only the top byte selects byte 1). -/
def chunk0IndecesFrom1 : List Int :=
  [-1, -1, -1, -1, -1, -1, -1, -1, -1, -1, -1, -1, -1, -1, -1, 1]

/-- `chunk2IndecesFrom1`, low byte first (source:
`_mm_set_epi8(-1, ..., -1, 14)`: only the bottom byte selects byte 14). -/
def chunk2IndecesFrom1 : List Int :=
  [14, -1, -1, -1, -1, -1, -1, -1, -1, -1, -1, -1, -1, -1, -1, -1]

/-- `chunk1IndecesFrom0`, low byte first (source:
`_mm_set_epi8(-1, ..., -1, 15, -1)`: byte 1 selects byte 15). -/
def chunk1IndecesFrom0 : List Int :=
  [-1, 15, -1, -1, -1, -1, -1, -1, -1, -1, -1, -1, -1, -1, -1, -1]

/-- `chunk1IndecesFrom2`, low byte first (source:
`_mm_set_epi8(-1, 0, -1, ..., -1)`: byte 14 selects byte 0). -/
def chunk1IndecesFrom2 : List Int :=
  [-1, -1, -1, -1, -1, -1, -1, -1, -1, -1, -1, -1, -1, -1, 0, -1]

/-- `_mm_or_si128`, bytewise. -/
def orBytes (a b : List Nat) : List Nat := List.zipWith (· ||| ·) a b

/-- The three 16-byte stores of one iteration of the SSSE3 inner loop of
`SampleGrabber::BufferCB`, operating on the three loaded chunks of a
48-byte (16-pixel) source window, concatenated in store order. -/
def vectorPack (chunk0 chunk1 chunk2 : Nat → Nat) : List Nat :=
  orBytes (pshufb chunk0 swapIndeces_0) (pshufb chunk1 chunk0IndecesFrom1) ++
  orBytes (orBytes (pshufb chunk1 swapIndeces_1) (pshufb chunk0 chunk1IndecesFrom0))
          (pshufb chunk2 chunk1IndecesFrom2) ++
  orBytes (pshufb chunk2 swapIndeces_2) (pshufb chunk1 chunk2IndecesFrom1)

/-- One destination row as written by the SSSE3 conversion path: the
16-pixel chunk loop (`packs = width / 16` iterations, each consuming the
48 source bytes at offset `48 * p`) followed by the scalar tail loop over
the remaining `width % 16` pixels. -/
def vectorRow (src : Nat → Nat) (width : Nat) : List Nat :=
  (List.range (width / 16)).flatMap (fun p =>
    vectorPack (fun j => src (48 * p + j)) (fun j => src (48 * p + (16 + j)))
      (fun j => src (48 * p + (32 + j)))) ++
  (List.range (width % 16)).flatMap (fun x =>
    scalarPixel (fun i => src (48 * (width / 16) + (3 * x + i))))

/-- `scalarPixel` spelled out: the output pixel is the source pixel with
its first and third bytes swapped. -/
lemma scalarPixel_eq (src : Nat → Nat) :
    scalarPixel src = [src 2, src 1, src 0] := rfl

/-- `List.range 16` as a literal. -/
lemma range_sixteen :
    List.range 16 = [0, 1, 2, 3, 4, 5, 6, 7, 8, 9, 10, 11, 12, 13, 14, 15] := by
  decide

/-- One 48-byte SSSE3 pack produces exactly the 16 scalar pixels of the
same source window. -/
lemma vectorPack_eq (c : Nat → Nat) :
    vectorPack c (fun j => c (16 + j)) (fun j => c (32 + j)) =
      (List.range 16).flatMap (fun x => scalarPixel (fun i => c (3 * x + i))) := by
  rw [range_sixteen]
  simp [vectorPack, orBytes, pshufb, scalarPixel_eq,
        swapIndeces_0, swapIndeces_1, swapIndeces_2,
        chunk0IndecesFrom1, chunk2IndecesFrom1, chunk1IndecesFrom0, chunk1IndecesFrom2]

/-- Pointwise-equal functions give equal `flatMap` images. -/
lemma flatMap_congr_fun {α β : Type} (l : List α) (f g : α → List β)
    (h : ∀ x, f x = g x) : l.flatMap f = l.flatMap g :=
  congrArg (List.flatMap l) (funext h)

/-- Splitting a `flatMap` over `range (n * q)` into `q` blocks of `n`. -/
lemma range_mul_flatMap {β : Type} (n : Nat) (g : Nat → List β) :
    ∀ q : Nat, (List.range (n * q)).flatMap g =
      (List.range q).flatMap (fun p => (List.range n).flatMap (fun x => g (n * p + x)))
  | 0 => by simp
  | q + 1 => by
    have h1 : n * (q + 1) = n * q + n := by ring
    rw [h1, List.range_add, List.flatMap_append, List.flatMap_map,
        range_mul_flatMap n g q, List.range_succ, List.flatMap_append]
    simp

/-- The SSSE3 row conversion is byte-identical to the scalar row
conversion, for every source row and width. -/
lemma vectorRow_eq_scalarRow (src : Nat → Nat) (w : Nat) :
    vectorRow src w = scalarRow src w := by
  unfold vectorRow
  conv_rhs => rw [show w = 16 * (w / 16) + w % 16 from (Nat.div_add_mod w 16).symm]
  unfold scalarRow
  rw [List.range_add, List.flatMap_append, List.flatMap_map, range_mul_flatMap]
  congr 1
  · apply flatMap_congr_fun
    intro p
    rw [vectorPack_eq (fun j => src (48 * p + j))]
    apply flatMap_congr_fun
    intro x
    apply congrArg scalarPixel
    funext i
    apply congrArg src
    ring
  · apply flatMap_congr_fun
    intro x
    apply congrArg scalarPixel
    funext i
    apply congrArg src
    ring

/-- The whole-frame conversion of `SampleGrabber::BufferCB`,
parameterised by the row converter (scalar or SSSE3): the destination
pointer starts at the last row (`dst = data + dstStride * (height - 1)`)
and walks upwards while the source walks downwards, so destination row
`r` holds the converted source row `height - 1 - r`.  Rows are modelled
as the 3·width bytes each row conversion writes (the destination stride
only spaces rows in memory and never mixes them). -/
def convertImage (rowConv : (Nat → Nat) → Nat → List Nat) (buf : Nat → Nat)
    (width height srcStride : Nat) : List (List Nat) :=
  (List.range height).map (fun r =>
    rowConv (fun i => buf ((height - 1 - r) * srcStride + i)) width)

/-- Claim C1: for every input buffer, width, height and source stride, the
scalar per-pixel conversion path and the SSSE3 vector path (16-pixel
48-byte chunks through the fixed shuffle masks plus the scalar tail loop)
of `SampleGrabber::BufferCB` produce byte-identical output images. -/
theorem scalar_vector_paths_identical (buf : Nat → Nat)
    (width height srcStride : Nat) :
    convertImage vectorRow buf width height srcStride =
      convertImage scalarRow buf width height srcStride := by
  unfold convertImage
  exact congrArg (fun g => List.map g (List.range height))
    (funext fun r => vectorRow_eq_scalarRow _ _)

/-- `scalarRow` as a position-indexed map: output byte `j` is source byte
`3 * (j / 3) + (2 - j % 3)` of the row. -/
lemma scalarRow_map_form (src : Nat → Nat) (w : Nat) :
    scalarRow src w =
      (List.range (3 * w)).map (fun j => src (3 * (j / 3) + (2 - j % 3))) := by
  induction w with
  | zero => rfl
  | succ n ih =>
    have h3 : 3 * (n + 1) = 3 * n + 3 := by ring
    rw [scalarRow, List.range_succ, List.flatMap_append, ← scalarRow, ih, h3,
        List.range_add, List.map_append]
    congr 1
    have hr3 : List.range 3 = [0, 1, 2] := by decide
    have d0 : 3 * n / 3 = n := by omega
    have m0 : 3 * n % 3 = 0 := by omega
    have d1 : (3 * n + 1) / 3 = n := by omega
    have m1 : (3 * n + 1) % 3 = 1 := by omega
    have d2 : (3 * n + 2) / 3 = n := by omega
    have m2 : (3 * n + 2) % 3 = 2 := by omega
    simp [scalarPixel_eq, hr3, d0, m0, d1, m1, d2, m2]

/-- Byte `3 * x + k` of a scalar-converted row is byte `3 * x + (2 - k)`
of the source row: channel order is reversed within each pixel. -/
lemma scalarRow_getD (src : Nat → Nat) (w x k : Nat) (hx : x < w) (hk : k < 3) :
    (scalarRow src w).getD (3 * x + k) 0 = src (3 * x + (2 - k)) := by
  rw [scalarRow_map_form]
  have hlt : 3 * x + k < 3 * w := by omega
  rw [List.getD_eq_getElem?_getD, List.getElem?_map, List.getElem?_range hlt]
  have dd : (3 * x + k) / 3 = x := by omega
  have mm : (3 * x + k) % 3 = k := by omega
  simp [dd, mm]

/-- Byte accessor into the produced image (row, then byte offset in the
row); out-of-range reads yield 0 and never occur in the claims. -/
def outByte (img : List (List Nat)) (row col : Nat) : Nat :=
  (img.getD row []).getD col 0

/-- `SampleGrabber::BufferCB` frame conversion: the source row stride is
derived as `bufferLen / height` and the scalar row converter is the
reference semantics (claim C1 shows the SSSE3 path coincides). -/
def BufferCB (buf : Nat → Nat) (bufferLen width height : Nat) : List (List Nat) :=
  convertImage scalarRow buf width height (bufferLen / height)

/-- Claim C2: for every raw buffer and byte length, with the source row
stride derived as `bufferLen / height`, the pixel at `(x, height - 1 - y)`
of the converted top-down RGB24 image equals the pixel at `(x, y)` of the
input with its first and third byte channels swapped, for all `x < width`
and `y < height`. -/
theorem converted_pixel_flipped_and_swapped (buf : Nat → Nat)
    (bufferLen width height x y : Nat) (hx : x < width) (hy : y < height) :
    outByte (BufferCB buf bufferLen width height) (height - 1 - y) (3 * x) =
      buf (y * (bufferLen / height) + 3 * x + 2) ∧
    outByte (BufferCB buf bufferLen width height) (height - 1 - y) (3 * x + 1) =
      buf (y * (bufferLen / height) + 3 * x + 1) ∧
    outByte (BufferCB buf bufferLen width height) (height - 1 - y) (3 * x + 2) =
      buf (y * (bufferLen / height) + 3 * x) := by
  have hrow : height - 1 - y < height := by omega
  have hyy : height - 1 - (height - 1 - y) = y := by omega
  have himg : (BufferCB buf bufferLen width height).getD (height - 1 - y) [] =
      scalarRow (fun i => buf (y * (bufferLen / height) + i)) width := by
    unfold BufferCB convertImage
    rw [List.getD_eq_getElem?_getD, List.getElem?_map, List.getElem?_range hrow]
    simp [hyy]
  refine ⟨?_, ?_, ?_⟩ <;> unfold outByte <;> rw [himg]
  · have h := scalarRow_getD (fun i => buf (y * (bufferLen / height) + i))
      width x 0 hx (by omega)
    simpa [Nat.add_assoc] using h
  · have h := scalarRow_getD (fun i => buf (y * (bufferLen / height) + i))
      width x 1 hx (by omega)
    simpa [Nat.add_assoc] using h
  · have h := scalarRow_getD (fun i => buf (y * (bufferLen / height) + i))
      width x 2 hx (by omega)
    simpa [Nat.add_assoc] using h

/-- Witness for claim C2 on a concrete 2x2 frame whose buffer holds its
own byte index: both row reversal and channel swap are visible. -/
theorem converted_pixel_flipped_and_swapped_witness :
    outByte (BufferCB (fun i => i) 12 2 2) 1 0 = 2 ∧
    outByte (BufferCB (fun i => i) 12 2 2) 1 4 = 4 ∧
    outByte (BufferCB (fun i => i) 12 2 2) 0 2 = 6 :=
  ⟨by simpa using
      (converted_pixel_flipped_and_swapped (fun i => i) 12 2 2 0 0
        (by decide) (by decide)).1,
   by simpa using
      (converted_pixel_flipped_and_swapped (fun i => i) 12 2 2 1 0
        (by decide) (by decide)).2.1,
   by simpa using
      (converted_pixel_flipped_and_swapped (fun i => i) 12 2 2 0 1
        (by decide) (by decide)).2.2⟩

end CVSandbox
